import Mathlib

/-!
# Verification of the Springer metadata-enrichment pipeline

A shallow embedding of `springer_books.py` (the metadata-enrichment
pipeline of the collection-workflows repository) together with theorems
settling the specification claims about it.

Modelling conventions:

* An openpyxl worksheet is a mutable, 1-based grid of cells; we model it
  as a function from (row, column) to cell values plus a fixed `max_row`.
* The network (`requests.get`) is modelled as a function from URL strings
  to a pair of an HTTP status code and the lxml-parsed document for that
  URL (`html.fromstring` of the body is folded into the model, since the
  parsed representation is all the script ever consumes).
* A parsed HTML document is modelled by the results of the seven XPath
  queries the script performs on it: each field holds the first element
  of the query's result list, if any.
* The script's `str(x.encode("utf-8"))` conversions are modelled as the
  identity on the text, i.e. with the Python-2 semantics this 2019-era
  script was written for.
* File I/O: `openpyxl.load_workbook` is a function from filenames to an
  optional worksheet, and `wb.save` is recorded as an event in the run
  trace rather than mutating a file store (the script always saves the
  whole workbook to the same derived output path).
-/

namespace SpringerBooks

/-- A cell value of the workbook: empty (`None` in Python), a string, or
an integer (the year field is written as a Python `int`). -/
inductive CellValue where
  | none
  | str (s : String)
  | int (n : Nat)
deriving DecidableEq

/-- Python truthiness of a cell value, as used by `if issn:` in the row
loop: `None`, the empty string and `0` are falsy. -/
def truthy : CellValue → Bool
  | .none => false
  | .str s => !(s == "")
  | .int n => !(n == 0)

/-- Rendering of a cell value as the string that is concatenated into a
request URL.  The script concatenates the DOI cell directly
(`base_url + "book/" + doi`); a non-string cell would raise `TypeError`
in Python, and every claim only ever exercises string DOI cells, so the
embedding totalises the conversion with a canonical rendering. -/
def CellValue.asStr : CellValue → String
  | .none => "None"
  | .str s => s
  | .int n => toString n

/-- A parsed HTML document, represented by the first result (if any) of
each of the XPath queries performed by `ParseBookPage` and
`ParseLandoltBookPage`:

* `seriesText`    — `//p[@data-test='test-series']/a/text()`
* `volumeText`    — `//p[@data-test='test-series']/span/text()`
* `yearText`      — `//span[@id='copyright-info']/text()`
* `packageText`   — `//a[@id='ebook-package']/text()`
* `subseriesText` — `//p[@data-test='test-subseries']/a/text()`
* `lbSeriesText`  — `//div[@class='publication-title']/span/text()`
* `lbVolumeText`  — `//div[@class='document__enumeration']/span/text()`
-/
structure Doc where
  seriesText : Option String
  volumeText : Option String
  yearText : Option String
  packageText : Option String
  subseriesText : Option String
  lbSeriesText : Option String
  lbVolumeText : Option String
deriving DecidableEq

/-- The document with no recognised structure at all (every XPath query
returns an empty list). -/
def emptyDoc : Doc := ⟨none, none, none, none, none, none, none⟩

/-!
## Regular-expression matching

The script uses four `re.search` calls.  Each is embedded as a scanner
that tries an anchored matcher at every suffix, left to right, which is
exactly `re.search`'s leftmost-match semantics.  `.` does not match a
newline (no `re.DOTALL` flag is passed), and `(.+)` is greedy, so in
`volume (.+)\)` the group extends to the last `)` of the line.
-/

/-- Leftmost-match scanner: try the anchored matcher `m` at every suffix
of the text, left to right (the semantics of `re.search`). -/
def reSearchAux {α : Type} (m : List Char → Option α) : List Char → Option α
  | [] => Option.none
  | c :: t =>
    match m (c :: t) with
    | some g => some g
    | Option.none => reSearchAux m t

/-- The character class `[A-Za-z\+]` of the acronym pattern. -/
def acrClass (c : Char) : Bool := c.isAlpha || c == '+'

/-- Anchored matcher for `\(([A-Za-z\+]+)`: a literal `(` followed by a
nonempty, greedy run of class characters; returns group 1. -/
def matchAcronymAt : List Char → Option String
  | '(' :: c :: rest =>
    if acrClass c then some (String.mk (c :: rest.takeWhile acrClass)) else Option.none
  | _ => Option.none

/-- Index of the last occurrence of `ch` in `l`, if any. -/
def lastIdxOf (ch : Char) (l : List Char) : Option Nat :=
  match l.reverse.findIdx? (fun c => c == ch) with
  | some k => some (l.length - 1 - k)
  | Option.none => Option.none

/-- Anchored matcher for `volume (.+)\)`: the literal `volume ` followed
by a greedy nonempty group and a `)`.  Since `.` does not cross a
newline, the group runs to the last `)` on the same line, and the match
fails if no `)` at index ≥ 1 exists there. -/
def matchVolumeLowerAt (l : List Char) : Option String :=
  if l.take 7 = "volume ".data then
    let line := (l.drop 7).takeWhile (fun c => !(c == '\n'))
    match lastIdxOf ')' line with
    | some j => if 1 ≤ j then some (String.mk (line.take j)) else Option.none
    | Option.none => Option.none
  else Option.none

/-- Anchored matcher for `Volume (.+) ` (used by the Landolt schema):
the literal `Volume ` followed by a greedy nonempty group and a space. -/
def matchVolumeUpperAt (l : List Char) : Option String :=
  if l.take 7 = "Volume ".data then
    let line := (l.drop 7).takeWhile (fun c => !(c == '\n'))
    match lastIdxOf ' ' line with
    | some j => if 1 ≤ j then some (String.mk (line.take j)) else Option.none
    | Option.none => Option.none
  else Option.none

/-- Anchored matcher for `\d\d\d\d`, already combined with the `int(...)`
conversion the script applies to the matched group. -/
def match4DigitsAt : List Char → Option Nat
  | a :: b :: c :: d :: _ =>
    if a.isDigit && b.isDigit && c.isDigit && d.isDigit then
      some ((((a.toNat - 48) * 10 + (b.toNat - 48)) * 10 + (c.toNat - 48)) * 10
        + (d.toNat - 48))
    else Option.none
  | _ => Option.none

/-- `re.search(r"\(([A-Za-z\+]+)", s)`, group 1. -/
def reSearchAcronym (s : String) : Option String := reSearchAux matchAcronymAt s.data

/-- `re.search(r"volume (.+)\)", s)`, group 1. -/
def reSearchVolumeLower (s : String) : Option String := reSearchAux matchVolumeLowerAt s.data

/-- `re.search(r"Volume (.+) ", s)`, group 1. -/
def reSearchVolumeUpper (s : String) : Option String := reSearchAux matchVolumeUpperAt s.data

/-- `int(re.search(r"\d\d\d\d", s).group(0))`. -/
def reSearchYear (s : String) : Option Nat := reSearchAux match4DigitsAt s.data

/-!
## `RequestBookInfoPage`
-/

/-- `base_url` of `RequestBookInfoPage`. -/
def base_url : String := "http://link.springer.com/"

/-- First candidate location: the book endpoint. -/
def book_request (doi : String) : String := base_url ++ "book/" ++ doi ++ "#about"

/-- Second candidate location: the reference-work endpoint. -/
def ref_request (doi : String) : String := base_url ++ "referencework/" ++ doi ++ "#about"

/-- Third candidate location: generic DOI resolution at dx.doi.org. -/
def dx_request (doi : String) : String := "http://dx.doi.org/" ++ doi

/-- `RequestBookInfoPage` of `springer_books.py`: resolve a DOI by trying
the three candidate locations in order, falling through on HTTP 404.
`net` maps a URL to the response's status code and parsed document.
Besides the source's return value (the resolved document, if any, and
the Landolt classification flag) the embedding also returns the list of
URLs requested, in order, so that claims about which endpoints were
contacted are statable. -/
def RequestBookInfoPage (net : String → Nat × Doc) (doi : String) :
    Option Doc × Bool × List String :=
  let book_page := net (book_request doi)
  if book_page.1 = 404 then
    let book_page2 := net (ref_request doi)
    if book_page2.1 = 404 then
      let book_page3 := net (dx_request doi)
      -- reaching the dx.doi.org URL sets `landolt = True` in the source,
      -- but the all-404 exit returns `None, False`
      if book_page3.1 = 404 then
        (Option.none, false, [book_request doi, ref_request doi, dx_request doi])
      else
        (some book_page3.2, true, [book_request doi, ref_request doi, dx_request doi])
    else
      (some book_page2.2, false, [book_request doi, ref_request doi])
  else
    (some book_page.2, false, [book_request doi])

/-!
## The two extraction schemas
-/

/-- The per-row metadata record (`book_dict` of the source). -/
structure BookDict where
  series : CellValue
  acronym : CellValue
  volume : CellValue
  year : CellValue
  package : CellValue
  subseries : CellValue
deriving DecidableEq

/-- The initializer `dict(series="Unavailable", acronym="", volume="",
year="", package="", subseries="")` shared by both parse functions. -/
def defaultBookDict : BookDict :=
  ⟨.str "Unavailable", .str "", .str "", .str "", .str "", .str ""⟩

/-- `ParseBookPage` of `springer_books.py` (standard schema).  Each
lookup and each pattern application is guarded exactly as in the source:
a missing element or a failed match leaves the field at its default. -/
def ParseBookPage (book_html : Option Doc) : BookDict :=
  let book_dict := defaultBookDict
  match book_html with
  | Option.none => book_dict
  | some d =>
    let book_dict :=
      match d.seriesText with
      | some t => { book_dict with series := .str t }
      | Option.none => book_dict
    let book_dict :=
      match d.volumeText with
      | some t =>
        let book_dict :=
          match reSearchAcronym t with
          | some g => { book_dict with acronym := .str g }
          | Option.none => book_dict
        match reSearchVolumeLower t with
        | some g => { book_dict with volume := .str g }
        | Option.none => book_dict
      | Option.none => book_dict
    let book_dict :=
      match d.yearText with
      | some t =>
        match reSearchYear t with
        | some n => { book_dict with year := .int n }
        | Option.none => book_dict
      | Option.none => book_dict
    let book_dict :=
      match d.packageText with
      | some t => { book_dict with package := .str t }
      | Option.none => book_dict
    match d.subseriesText with
    | some t => { book_dict with subseries := .str t }
    | Option.none => book_dict

/-- `ParseLandoltBookPage` of `springer_books.py` (legacy schema). -/
def ParseLandoltBookPage (book_html : Option Doc) : BookDict :=
  let book_dict := defaultBookDict
  match book_html with
  | Option.none => book_dict
  | some d =>
    let book_dict :=
      match d.lbSeriesText with
      | some t => { book_dict with series := .str t }
      | Option.none => book_dict
    match d.lbVolumeText with
    | some t =>
      let book_dict :=
        match reSearchVolumeUpper t with
        | some g => { book_dict with volume := .str g }
        | Option.none => book_dict
      match reSearchYear t with
      | some n => { book_dict with year := .int n }
      | Option.none => book_dict
    | Option.none => book_dict

/-!
## The worksheet and the enhancement run
-/

/-- An openpyxl worksheet: a 1-based grid of cells together with the
index of its last row (`ws.max_row`). -/
structure Worksheet where
  cell : Nat → Nat → CellValue
  max_row : Nat

/-- `ws.cell(row=r, column=c).value = v`. -/
def Worksheet.setCell (ws : Worksheet) (r c : Nat) (v : CellValue) : Worksheet :=
  { ws with cell := fun r2 c2 => if r2 = r ∧ c2 = c then v else ws.cell r2 c2 }

/-- `ws.insert_cols(idx, amount)`: openpyxl inserts `amount` fresh
(empty) columns before column index `idx`; columns left of `idx` keep
their place, the rest shift right by `amount`. -/
def insertCols (idx amount : Nat) (ws : Worksheet) : Worksheet :=
  { ws with
    cell := fun r c =>
      if c < idx then ws.cell r c
      else if c < idx + amount then CellValue.none
      else ws.cell r (c - amount) }

/-- `VERSION` of `springer_books.py`. -/
def VERSION : Nat := 1

/-- Python's `str.split(".")`, written with an accumulator for the
current chunk (kept in reverse). -/
def splitDotAux : List Char → List Char → List (List Char)
  | acc, [] => [acc.reverse]
  | acc, c :: t =>
    if c = '.' then acc.reverse :: splitDotAux [] t else splitDotAux (c :: acc) t

/-- The derived output filename:
`split_filename = filename.split(".")` followed by
`split_filename[0] + "_v" + str(VERSION) + "." + split_filename[1]`.
Accessing `split_filename[1]` raises `IndexError` when the filename
contains no dot; that failure is the `none` case. -/
def newFilenameOf (filename : String) : Option String :=
  let split_filename := (splitDotAux [] filename.data).map String.mk
  match split_filename with
  | p0 :: p1 :: _ => some (p0 ++ "_v" ++ toString VERSION ++ "." ++ p1)
  | _ => Option.none

/-- `series_col = ord(issn_col) - 63`, the column the six new fields
start at (its successors up to `+5` hold the remaining five fields). -/
def seriesColOf (issn_col : Char) : Nat := issn_col.toNat - 63

/-- An observable effect of the run: a network request to a URL, or a
save of the whole workbook to a file. -/
inductive Event where
  | request (url : String)
  | save (filename : String)
deriving DecidableEq

/-- Whether an event is a workbook save. -/
def Event.isSave : Event → Bool
  | .save _ => true
  | .request _ => false

/-- The evolving state of a run: the in-memory workbook, the
`book_count` tally of processed rows, and the trace of observable
effects in order. -/
structure RunState where
  ws : Worksheet
  book_count : Nat
  events : List Event

/-- One iteration of the row loop of `RunReportEnhancement` (lines
74-91 of the source) at row `i`: read the ISSN cell; when it is truthy,
read the DOI cell, resolve and parse it, and write the six fields into
columns `series_col .. series_col + 5`; finally save the workbook when
`i % 1000 == 0`.  The five offset columns are the
`acronym_col .. subseries_col` constants computed once in
`RunReportEnhancement` (lines 59-63). -/
def processRow (net : String → Nat × Doc) (doi_col issn_col : Char) (series_col : Nat)
    (new_filename : String) (st : RunState) (i : Nat) : RunState :=
  let acronym_col := series_col + 1
  let volume_col := series_col + 2
  let year_col := series_col + 3
  let package_col := series_col + 4
  let subseries_col := series_col + 5
  let issn := st.ws.cell i (issn_col.toNat - 64)
  let st1 :=
    if truthy issn then
      let doi := st.ws.cell i (doi_col.toNat - 64)
      let res := RequestBookInfoPage net doi.asStr
      let book_html := res.1
      let landolt := res.2.1
      let reqs := res.2.2
      let book_dict :=
        if landolt then ParseLandoltBookPage book_html else ParseBookPage book_html
      let ws := st.ws.setCell i series_col book_dict.series
      let ws := ws.setCell i acronym_col book_dict.acronym
      let ws := ws.setCell i volume_col book_dict.volume
      let ws := ws.setCell i year_col book_dict.year
      let ws := ws.setCell i package_col book_dict.package
      let ws := ws.setCell i subseries_col book_dict.subseries
      { ws := ws, book_count := st.book_count + 1,
        events := st.events ++ reqs.map Event.request }
    else st
  if i % 1000 == 0 then { st1 with events := st1.events ++ [Event.save new_filename] }
  else st1

/-- The workbook the run starts from: on a rerun, the previously saved
versioned output; on a fresh run, the source workbook with the six new
columns inserted at `series_col` (lines 64-70 of the source). -/
def initialWs (files : String → Option Worksheet) (filename new_filename : String)
    (series_col : Nat) (rerun : Bool) : Option Worksheet :=
  if rerun then files new_filename
  else (files filename).map (fun ws => insertCols series_col 6 ws)

/-- The row loop over `range(first_row, ws.max_row + 1)` followed by the
unconditional final save (lines 73-93 of the source). -/
def runFromWs (net : String → Nat × Doc) (doi_col issn_col : Char) (first_row : Nat)
    (new_filename : String) (ws : Worksheet) : RunState :=
  let init : RunState := { ws := ws, book_count := 0, events := [] }
  let final := (List.range' first_row (ws.max_row + 1 - first_row)).foldl
    (processRow net doi_col issn_col (seriesColOf issn_col) new_filename) init
  { final with events := final.events ++ [Event.save new_filename] }

/-- `RunReportEnhancement` of `springer_books.py`: derive the versioned
output filename, open the appropriate workbook for the mode (inserting
the six columns only on a fresh run), run the row loop with periodic
checkpoints, and save finally.  `none` models the fatal failure modes:
an underivable output filename (`IndexError`) or a missing workbook
file. -/
def RunReportEnhancement (net : String → Nat × Doc) (files : String → Option Worksheet)
    (filename : String) (first_row : Nat) (doi_col issn_col : Char) (rerun : Bool) :
    Option RunState :=
  match newFilenameOf filename with
  | Option.none => Option.none
  | some new_filename =>
    (initialWs files filename new_filename (seriesColOf issn_col) rerun).map
      (runFromWs net doi_col issn_col first_row new_filename)

/-!
## Per-field extraction functions

`ParseBookPage` and `ParseLandoltBookPage` update the default record
with a sequence of independently guarded assignments.  The following
functions give each field's value as a function of the one piece of
text it is extracted from; the decomposition lemmas below show that the
parse functions are exactly the tuple of these per-field functions.
-/

/-- The series field as a function of the series query text: the text
itself when present, the `"Unavailable"` default otherwise. -/
def seriesFieldOf : Option String → CellValue
  | some t => .str t
  | Option.none => .str "Unavailable"

/-- The acronym field as a function of the volume query text: group 1
of the acronym pattern when it matches, the empty default otherwise. -/
def acronymFieldOf : Option String → CellValue
  | some t => (reSearchAcronym t).elim (.str "") (fun g => .str g)
  | Option.none => .str ""

/-- The volume field (standard schema) as a function of the volume
query text. -/
def volumeFieldOf : Option String → CellValue
  | some t => (reSearchVolumeLower t).elim (.str "") (fun g => .str g)
  | Option.none => .str ""

/-- The year field as a function of its source text: the first four
digit run as an integer when the pattern matches, the empty default
otherwise. -/
def yearFieldOf : Option String → CellValue
  | some t => (reSearchYear t).elim (.str "") (fun n => .int n)
  | Option.none => .str ""

/-- The package field as a function of the package query text. -/
def packageFieldOf : Option String → CellValue
  | some t => .str t
  | Option.none => .str ""

/-- The subseries field as a function of the subseries query text. -/
def subseriesFieldOf : Option String → CellValue
  | some t => .str t
  | Option.none => .str ""

/-- The volume field of the legacy schema as a function of the
enumeration query text. -/
def lbVolumeFieldOf : Option String → CellValue
  | some t => (reSearchVolumeUpper t).elim (.str "") (fun g => .str g)
  | Option.none => .str ""

lemma parseBookPage_decomp (d : Doc) :
    ParseBookPage (some d) =
      ⟨seriesFieldOf d.seriesText, acronymFieldOf d.volumeText,
        volumeFieldOf d.volumeText, yearFieldOf d.yearText,
        packageFieldOf d.packageText, subseriesFieldOf d.subseriesText⟩ := by
  obtain ⟨s, v, y, p, ss, ls, lv⟩ := d
  cases s <;> cases v <;> cases y <;> cases p <;> cases ss <;>
    simp only [ParseBookPage, defaultBookDict, seriesFieldOf, acronymFieldOf,
      volumeFieldOf, yearFieldOf, packageFieldOf, subseriesFieldOf] <;>
    (repeat' split) <;> simp_all

lemma parseLandolt_decomp (d : Doc) :
    ParseLandoltBookPage (some d) =
      ⟨seriesFieldOf d.lbSeriesText, .str "", lbVolumeFieldOf d.lbVolumeText,
        yearFieldOf d.lbVolumeText, .str "", .str ""⟩ := by
  obtain ⟨s, v, y, p, ss, ls, lv⟩ := d
  cases ls <;> cases lv <;>
    simp only [ParseLandoltBookPage, defaultBookDict, seriesFieldOf,
      lbVolumeFieldOf, yearFieldOf] <;>
    (repeat' split) <;> simp_all

/-!
## Distinctness of the three request URLs
-/

lemma dx_ne_book (doi : String) : dx_request doi ≠ book_request doi := by
  intro h
  have h8 := congrArg (fun s => List.take 8 s.data) h
  simp only [dx_request, book_request, base_url, String.data_append,
    List.append_assoc] at h8
  rw [List.take_append_of_le_length (by decide),
    List.take_append_of_le_length (by decide)] at h8
  exact absurd h8 (by decide)

lemma dx_ne_ref (doi : String) : dx_request doi ≠ ref_request doi := by
  intro h
  have h8 := congrArg (fun s => List.take 8 s.data) h
  simp only [dx_request, ref_request, base_url, String.data_append,
    List.append_assoc] at h8
  rw [List.take_append_of_le_length (by decide),
    List.take_append_of_le_length (by decide)] at h8
  exact absurd h8 (by decide)

/-- A network on which every URL answers HTTP 404. -/
def all404net : String → Nat × Doc := fun _ => (404, emptyDoc)

/-- A network for the C3 scenario: the book endpoint of the probed DOI
answers 404, everything else answers 200 with a structured document. -/
def c3net : String → Nat × Doc := fun url =>
  if url = book_request "10.1007/b100000" then (404, emptyDoc)
  else (200, { emptyDoc with seriesText := some "Lecture Notes in Series" })

/-- C3: resource resolution tries up to three locations in the fixed
order book, reference-work, generic DOI resolution, falling through only
on a 404; when the book endpoint answers 404 and the reference-work
endpoint succeeds, the resolved document is the reference-work response
with the standard (non-Landolt) classification flag, and the dx.doi.org
endpoint is never requested (it is not among the requested URLs). -/
theorem claim_C3 (net : String → Nat × Doc) (doi : String)
    (h1 : (net (book_request doi)).1 = 404)
    (h2 : (net (ref_request doi)).1 ≠ 404) :
    RequestBookInfoPage net doi
      = (some (net (ref_request doi)).2, false, [book_request doi, ref_request doi]) ∧
    dx_request doi ∉ (RequestBookInfoPage net doi).2.2 := by
  have he : RequestBookInfoPage net doi
      = (some (net (ref_request doi)).2, false, [book_request doi, ref_request doi]) := by
    simp [RequestBookInfoPage, h1, h2]
  refine ⟨he, ?_⟩
  rw [he]
  simp [dx_ne_book doi, dx_ne_ref doi]

/-- Witness for C3 at a concrete network and DOI. -/
theorem claim_C3_witness :
    (c3net (book_request "10.1007/b100000")).1 = 404 ∧
    (c3net (ref_request "10.1007/b100000")).1 ≠ 404 ∧
    (RequestBookInfoPage c3net "10.1007/b100000"
        = (some (c3net (ref_request "10.1007/b100000")).2, false,
            [book_request "10.1007/b100000", ref_request "10.1007/b100000"]) ∧
      dx_request "10.1007/b100000" ∉ (RequestBookInfoPage c3net "10.1007/b100000").2.2) :=
  ⟨by decide, by decide, claim_C3 c3net "10.1007/b100000" (by decide) (by decide)⟩

/-- C5 (amended: the series sentinel the code writes is `"Unavailable"`,
with a capital U, not `"unavailable"`): when all three locations answer
404, `RequestBookInfoPage` returns normally with an absent document and
the standard classification flag — no exception — and the dispatched
extraction yields the all-default record: series `"Unavailable"`, the
other five fields empty. -/
theorem claim_C5 (net : String → Nat × Doc) (doi : String)
    (h1 : (net (book_request doi)).1 = 404)
    (h2 : (net (ref_request doi)).1 = 404)
    (h3 : (net (dx_request doi)).1 = 404) :
    RequestBookInfoPage net doi
      = (Option.none, false, [book_request doi, ref_request doi, dx_request doi]) ∧
    (if (RequestBookInfoPage net doi).2.1 then
        ParseLandoltBookPage (RequestBookInfoPage net doi).1
      else ParseBookPage (RequestBookInfoPage net doi).1) = defaultBookDict ∧
    defaultBookDict.series = CellValue.str "Unavailable" ∧
    defaultBookDict.acronym = CellValue.str "" ∧
    defaultBookDict.volume = CellValue.str "" ∧
    defaultBookDict.year = CellValue.str "" ∧
    defaultBookDict.package = CellValue.str "" ∧
    defaultBookDict.subseries = CellValue.str "" := by
  have he : RequestBookInfoPage net doi
      = (Option.none, false, [book_request doi, ref_request doi, dx_request doi]) := by
    simp [RequestBookInfoPage, h1, h2, h3]
  exact ⟨he, by rw [he]; rfl, rfl, rfl, rfl, rfl, rfl, rfl⟩

/-- Witness for C5 on the all-404 network. -/
theorem claim_C5_witness :
    (all404net (book_request "10.1007/b100000")).1 = 404 ∧
    (all404net (ref_request "10.1007/b100000")).1 = 404 ∧
    (all404net (dx_request "10.1007/b100000")).1 = 404 ∧
    (RequestBookInfoPage all404net "10.1007/b100000"
        = (Option.none, false,
            [book_request "10.1007/b100000", ref_request "10.1007/b100000",
              dx_request "10.1007/b100000"]) ∧
      (if (RequestBookInfoPage all404net "10.1007/b100000").2.1 then
          ParseLandoltBookPage (RequestBookInfoPage all404net "10.1007/b100000").1
        else ParseBookPage (RequestBookInfoPage all404net "10.1007/b100000").1)
        = defaultBookDict ∧
      defaultBookDict.series = CellValue.str "Unavailable" ∧
      defaultBookDict.acronym = CellValue.str "" ∧
      defaultBookDict.volume = CellValue.str "" ∧
      defaultBookDict.year = CellValue.str "" ∧
      defaultBookDict.package = CellValue.str "" ∧
      defaultBookDict.subseries = CellValue.str "") :=
  ⟨rfl, rfl, rfl, claim_C5 all404net "10.1007/b100000" rfl rfl rfl⟩

/-- C5 counterexample: the claim states the series field of the
all-not-found record equals the sentinel `"unavailable"`; the code
produces `"Unavailable"` (capital U), a different string. -/
theorem claim_C5_counterexample :
    (ParseBookPage (RequestBookInfoPage all404net "10.1007/b100000").1).series
        = CellValue.str "Unavailable" ∧
    CellValue.str "Unavailable" ≠ CellValue.str "unavailable" := by decide

/-- C8: each of the six standard-schema field extractions, the three
pattern-derived fields among them, and the legacy-schema extractions are
applied independently: the parse result is exactly the tuple of
per-field functions, each depending only on its own source text, and a
missing element or failed pattern match leaves exactly that field at
its default (the functions are total, so no extraction can raise or
abort the row). -/
theorem claim_C8 : ∀ d : Doc,
    ParseBookPage (some d) =
      ⟨seriesFieldOf d.seriesText, acronymFieldOf d.volumeText,
        volumeFieldOf d.volumeText, yearFieldOf d.yearText,
        packageFieldOf d.packageText, subseriesFieldOf d.subseriesText⟩ ∧
    ParseLandoltBookPage (some d) =
      ⟨seriesFieldOf d.lbSeriesText, .str "", lbVolumeFieldOf d.lbVolumeText,
        yearFieldOf d.lbVolumeText, .str "", .str ""⟩ ∧
    (∀ t : String, acronymFieldOf (some t)
        = (reSearchAcronym t).elim (.str "") (fun g => .str g)) ∧
    (∀ t : String, volumeFieldOf (some t)
        = (reSearchVolumeLower t).elim (.str "") (fun g => .str g)) ∧
    (∀ t : String, yearFieldOf (some t)
        = (reSearchYear t).elim (.str "") (fun n => .int n)) ∧
    (∀ t : String, lbVolumeFieldOf (some t)
        = (reSearchVolumeUpper t).elim (.str "") (fun g => .str g)) ∧
    seriesFieldOf Option.none = .str "Unavailable" ∧
    acronymFieldOf Option.none = .str "" ∧
    volumeFieldOf Option.none = .str "" ∧
    yearFieldOf Option.none = .str "" ∧
    packageFieldOf Option.none = .str "" ∧
    subseriesFieldOf Option.none = .str "" ∧
    lbVolumeFieldOf Option.none = .str "" :=
  fun d => ⟨parseBookPage_decomp d, parseLandolt_decomp d, fun _ => rfl, fun _ => rfl,
    fun _ => rfl, fun _ => rfl, rfl, rfl, rfl, rfl, rfl, rfl, rfl⟩

/-- C9: on an absent document the two extraction schemas agree and both
return the all-default record; on an all-not-found DOI the resolver
returns the absent document with the standard classification flag even
though the third location was reached, and the row's output record is
the same whichever schema the flag dispatches to. -/
theorem claim_C9 :
    ParseBookPage Option.none = ParseLandoltBookPage Option.none ∧
    ParseBookPage Option.none = defaultBookDict ∧
    RequestBookInfoPage all404net "10.1007/b100001"
      = (Option.none, false,
          [book_request "10.1007/b100001", ref_request "10.1007/b100001",
            dx_request "10.1007/b100001"]) ∧
    (∀ landolt : Bool,
      (if landolt then ParseLandoltBookPage Option.none else ParseBookPage Option.none)
        = defaultBookDict) := by
  refine ⟨rfl, rfl, by decide, ?_⟩
  intro b
  cases b <;> rfl

/-- C10: the legacy (Landolt) extraction schema never populates the
acronym, package or subseries fields: for every input document (present
or absent) those three fields of its result equal their empty
defaults. -/
theorem claim_C10 : ∀ book_html : Option Doc,
    (ParseLandoltBookPage book_html).acronym = CellValue.str "" ∧
    (ParseLandoltBookPage book_html).package = CellValue.str "" ∧
    (ParseLandoltBookPage book_html).subseries = CellValue.str "" := by
  intro bh
  cases bh with
  | none => exact ⟨rfl, rfl, rfl⟩
  | some d => rw [parseLandolt_decomp d]; exact ⟨rfl, rfl, rfl⟩

/-!
## Per-row behaviour: skip rule and writes
-/

/-- Whether an event is a network request. -/
def Event.isRequest : Event → Bool
  | .request _ => true
  | .save _ => false

/-- The metadata record computed for a row with the given DOI cell:
resolve, then dispatch on the Landolt classification flag (lines 78-82
of the source). -/
def rowDict (net : String → Nat × Doc) (doi : CellValue) : BookDict :=
  let res := RequestBookInfoPage net doi.asStr
  if res.2.1 then ParseLandoltBookPage res.1 else ParseBookPage res.1

lemma processRow_skip (net : String → Nat × Doc) (doi_col issn_col : Char)
    (series_col : Nat) (new_filename : String) (st : RunState) (i : Nat)
    (h : truthy (st.ws.cell i (issn_col.toNat - 64)) = false) :
    (processRow net doi_col issn_col series_col new_filename st i).ws = st.ws ∧
    (processRow net doi_col issn_col series_col new_filename st i).book_count
      = st.book_count ∧
    ((processRow net doi_col issn_col series_col new_filename st i).events).filter
        Event.isRequest
      = st.events.filter Event.isRequest := by
  simp only [processRow, h, Bool.false_eq_true, if_false]
  split <;> simp [Event.isRequest]

/-- C4: a row whose ISSN cell is empty (falsy) is skipped entirely: the
loop iteration leaves the workbook unchanged (in particular the six
new-column cells of the row are not written), issues no network
request, and does not increment the processed-row count.  (Only the
periodic checkpoint save, which is not a row effect, may still fire.) -/
theorem claim_C4 (net : String → Nat × Doc) (doi_col issn_col : Char)
    (series_col : Nat) (new_filename : String) (st : RunState) (i : Nat)
    (h : truthy (st.ws.cell i (issn_col.toNat - 64)) = false) :
    (processRow net doi_col issn_col series_col new_filename st i).ws = st.ws ∧
    (processRow net doi_col issn_col series_col new_filename st i).book_count
      = st.book_count ∧
    ((processRow net doi_col issn_col series_col new_filename st i).events).filter
        Event.isRequest
      = st.events.filter Event.isRequest :=
  processRow_skip net doi_col issn_col series_col new_filename st i h

/-- A run state whose worksheet is entirely empty. -/
def c4state : RunState := ⟨⟨fun _ _ => CellValue.none, 5⟩, 0, []⟩

/-- Witness for C4 at an empty-ISSN row of a concrete state. -/
theorem claim_C4_witness :
    truthy (c4state.ws.cell 2 ('G'.toNat - 64)) = false ∧
    ((processRow all404net 'D' 'G' 8 "r_v1.xlsx" c4state 2).ws = c4state.ws ∧
      (processRow all404net 'D' 'G' 8 "r_v1.xlsx" c4state 2).book_count
        = c4state.book_count ∧
      ((processRow all404net 'D' 'G' 8 "r_v1.xlsx" c4state 2).events).filter
          Event.isRequest
        = c4state.events.filter Event.isRequest) :=
  ⟨rfl, claim_C4 all404net 'D' 'G' 8 "r_v1.xlsx" c4state 2 rfl⟩

/-!
## Mode selection (fresh vs resume)
-/

/-- C6: with the resume flag set, the run opens the previously saved
versioned output (whose name is derived by the same filename rule) and
runs the row loop on it with no column insertion; with the flag clear
it opens the original source and applies the six-column insertion
exactly once before the loop. -/
theorem claim_C6 (net : String → Nat × Doc) (files : String → Option Worksheet)
    (filename : String) (first_row : Nat) (doi_col issn_col : Char) (nf : String)
    (hnf : newFilenameOf filename = some nf) :
    RunReportEnhancement net files filename first_row doi_col issn_col true
      = (files nf).map (runFromWs net doi_col issn_col first_row nf) ∧
    RunReportEnhancement net files filename first_row doi_col issn_col false
      = (files filename).map (fun ws =>
          runFromWs net doi_col issn_col first_row nf
            (insertCols (seriesColOf issn_col) 6 ws)) := by
  constructor <;>
    simp [RunReportEnhancement, hnf, initialWs, Option.map_map, Function.comp_def]

/-- Source workbook for the C6 witness (all cells empty). -/
def c6src : Worksheet := ⟨fun _ _ => CellValue.none, 3⟩

/-- Previously saved versioned output for the C6 witness. -/
def c6out : Worksheet :=
  ⟨fun r c => if r = 1 ∧ c = 8 then CellValue.str "Some Series" else CellValue.none, 3⟩

/-- A file store holding the source and the versioned output. -/
def c6files : String → Option Worksheet := fun s =>
  if s = "report.xlsx" then some c6src
  else if s = "report_v1.xlsx" then some c6out
  else Option.none

/-- Witness for C6 at a concrete file store. -/
theorem claim_C6_witness :
    newFilenameOf "report.xlsx" = some "report_v1.xlsx" ∧
    (RunReportEnhancement all404net c6files "report.xlsx" 1 'D' 'G' true
        = (c6files "report_v1.xlsx").map (runFromWs all404net 'D' 'G' 1 "report_v1.xlsx") ∧
      RunReportEnhancement all404net c6files "report.xlsx" 1 'D' 'G' false
        = (c6files "report.xlsx").map (fun ws =>
            runFromWs all404net 'D' 'G' 1 "report_v1.xlsx"
              (insertCols (seriesColOf 'G') 6 ws))) :=
  ⟨by decide, claim_C6 all404net c6files "report.xlsx" 1 'D' 'G' "report_v1.xlsx" (by decide)⟩

/-!
## Filename derivation
-/

lemma splitDotAux_no_dot (b : List Char) : ∀ acc : List Char, '.' ∉ b →
    splitDotAux acc b = [acc.reverse ++ b] := by
  induction b with
  | nil => intro acc _; simp [splitDotAux]
  | cons c t ih =>
    intro acc h
    have hc : ¬ c = '.' := by
      intro e
      exact h (by simp [e])
    rw [splitDotAux, if_neg hc, ih _ (fun hm => h (List.mem_cons_of_mem _ hm))]
    simp

lemma splitDotAux_dot (a : List Char) : ∀ (acc b : List Char), '.' ∉ a →
    splitDotAux acc (a ++ '.' :: b) = (acc.reverse ++ a) :: splitDotAux [] b := by
  induction a with
  | nil => intro acc b _; simp [splitDotAux]
  | cons c t ih =>
    intro acc b h
    have hc : ¬ c = '.' := by
      intro e
      exact h (by simp [e])
    rw [List.cons_append, splitDotAux, if_neg hc,
      ih _ _ (fun hm => h (List.mem_cons_of_mem _ hm))]
    simp

lemma string_mk_data (s : String) : String.mk s.data = s := rfl

/-- C7 (amended: the rule holds for filenames containing exactly one
dot, i.e. a dot-free stem and extension, the shape the script expects):
for such a filename `stem.ext` the derived output filename is
`stem_v1.ext` — the version tag inserted before the extension — which
is distinct from the input, so repeated runs never overwrite the
source. -/
theorem claim_C7 (a b : String) (ha : '.' ∉ a.data) (hb : '.' ∉ b.data) :
    newFilenameOf (a ++ "." ++ b) = some (a ++ "_v1." ++ b) ∧
    a ++ "_v1." ++ b ≠ a ++ "." ++ b := by
  constructor
  · have hdata : (a ++ "." ++ b).data = a.data ++ '.' :: b.data := by
      simp [String.data_append]
    rw [newFilenameOf, hdata, splitDotAux_dot a.data [] b.data ha,
      splitDotAux_no_dot b.data [] hb]
    simp only [List.map, List.nil_append, List.reverse_nil, string_mk_data]
    have hv : ∀ x : String, x ++ "_v" ++ toString VERSION ++ "." = x ++ "_v1." := by
      intro x
      rw [String.append_assoc, String.append_assoc]
      congr 1
    rw [hv]
  · intro h
    have hd := congrArg String.data h
    simp only [String.data_append, List.append_assoc] at hd
    have hd2 := List.append_cancel_left hd
    simp at hd2

/-- Witness for C7 at the concrete filename `report.xlsx`. -/
theorem claim_C7_witness :
    '.' ∉ ("report" : String).data ∧ '.' ∉ ("xlsx" : String).data ∧
    (newFilenameOf ("report" ++ "." ++ "xlsx")
        = some ("report" ++ "_v1." ++ "xlsx") ∧
      "report" ++ "_v1." ++ "xlsx" ≠ "report" ++ "." ++ "xlsx") :=
  ⟨by decide, by decide, claim_C7 "report" "xlsx" (by decide) (by decide)⟩

/-- C7 counterexample: for a filename with more than one dot the claim
fails — the code keeps only the first two dot-separated chunks, so
`my.report.xlsx` derives to `my_v1.report` (the `.xlsx` extension is
dropped), not to `my.report_v1.xlsx` with the tag before the
extension. -/
theorem claim_C7_counterexample :
    newFilenameOf "my.report.xlsx" = some "my_v1.report" ∧
    "my_v1.report" ≠ "my.report_v1.xlsx" := by decide

/-!
## Checkpoint cadence
-/

lemma filter_isSave_map_request (l : List String) :
    (l.map Event.request).filter Event.isSave = [] := by
  induction l with
  | nil => rfl
  | cons a t ih => simp [List.filter, Event.isSave, ih]

lemma processRow_filter_isSave (net : String → Nat × Doc) (doi_col issn_col : Char)
    (series_col : Nat) (new_filename : String) (st : RunState) (i : Nat) :
    ((processRow net doi_col issn_col series_col new_filename st i).events).filter
        Event.isSave
      = st.events.filter Event.isSave
        ++ (if i % 1000 == 0 then [Event.save new_filename] else []) := by
  simp only [processRow]
  split <;> split <;>
    simp [List.filter_append, filter_isSave_map_request, Event.isSave]

lemma runLoop_filter_isSave (net : String → Nat × Doc) (doi_col issn_col : Char)
    (series_col : Nat) (new_filename : String) :
    ∀ (rows : List Nat) (st : RunState),
    (((rows.foldl (processRow net doi_col issn_col series_col new_filename) st).events).filter
        Event.isSave)
      = st.events.filter Event.isSave
        ++ (rows.filter (fun i => i % 1000 == 0)).map (fun _ => Event.save new_filename) := by
  intro rows
  induction rows with
  | nil => intro st; simp
  | cons a t ih =>
    intro st
    simp only [List.foldl_cons, List.filter_cons]
    rw [ih, processRow_filter_isSave]
    by_cases h : (a % 1000 == 0) = true <;> simp [h]

/-- C2 (amended: checkpoints fire on the visited row index, not on
blocks of processed rows): during a run the entire workbook is
persisted to the versioned output path exactly at those visited rows
whose absolute index is divisible by 1000 — counting skipped rows and
the rows before `first_row`'s numbering, regardless of how many rows
were actually processed — and once more unconditionally after the last
row, which is also the final event of the run; every save persists the
whole current workbook, so no row processed before a save is missing
from the saved state. -/
theorem claim_C2 (net : String → Nat × Doc) (files : String → Option Worksheet)
    (filename : String) (first_row : Nat) (doi_col issn_col : Char) (rerun : Bool)
    (nf : String) (ws0 : Worksheet)
    (hnf : newFilenameOf filename = some nf)
    (hws : initialWs files filename nf (seriesColOf issn_col) rerun = some ws0) :
    ∃ st, RunReportEnhancement net files filename first_row doi_col issn_col rerun
        = some st ∧
      st.events.filter Event.isSave
        = ((List.range' first_row (ws0.max_row + 1 - first_row)).filter
            (fun i => i % 1000 == 0)).map (fun _ => Event.save nf)
          ++ [Event.save nf] ∧
      st.events.getLast? = some (Event.save nf) := by
  refine ⟨runFromWs net doi_col issn_col first_row nf ws0, ?_, ?_, ?_⟩
  · simp [RunReportEnhancement, hnf, hws]
  · simp only [runFromWs]
    rw [List.filter_append, runLoop_filter_isSave]
    simp [Event.isSave]
  · simp only [runFromWs]
    exact List.getLast?_concat _

/-- Witness for C2: a resumed run over rows 1..3 of the saved output. -/
theorem claim_C2_witness :
    newFilenameOf "report.xlsx" = some "report_v1.xlsx" ∧
    initialWs c6files "report.xlsx" "report_v1.xlsx" (seriesColOf 'G') true = some c6out ∧
    (∃ st, RunReportEnhancement all404net c6files "report.xlsx" 1 'D' 'G' true
        = some st ∧
      st.events.filter Event.isSave
        = ((List.range' 1 (c6out.max_row + 1 - 1)).filter
            (fun i => i % 1000 == 0)).map (fun _ => Event.save "report_v1.xlsx")
          ++ [Event.save "report_v1.xlsx"] ∧
      st.events.getLast? = some (Event.save "report_v1.xlsx")) :=
  ⟨by decide, rfl,
    claim_C2 all404net c6files "report.xlsx" 1 'D' 'G' true "report_v1.xlsx" c6out
      (by decide) rfl⟩

/-- File store for the C2 counterexample: a source workbook whose rows
are all blank and whose last row is row 1000. -/
def c2files : String → Option Worksheet := fun s =>
  if s = "r.xlsx" then some ⟨fun _ _ => CellValue.none, 1000⟩ else Option.none

/-- C2 counterexample: starting at `first_row = 1000` on a workbook
whose single visited row 1000 has an empty ISSN, the run processes zero
rows (`book_count = 0`), yet two saves occur — the row-1000 checkpoint
and the final save.  Under the claim as stated, saves happen only after
each block of 1000 processed rows plus the final one, i.e. exactly
`book_count / 1000 + 1 = 1` save for this run; the code performs 2. -/
theorem claim_C2_counterexample :
    (RunReportEnhancement all404net c2files "r.xlsx" 1000 'D' 'G' false).map
        (fun st => (st.book_count, st.events))
      = some (0, [Event.save "r_v1.xlsx", Event.save "r_v1.xlsx"]) ∧
    ([Event.save "r_v1.xlsx", Event.save "r_v1.xlsx"].filter Event.isSave).length
      ≠ 0 / 1000 + 1 := by decide

/-!
## Column layout of a fresh run
-/

lemma processRow_cell_ne_row (net : String → Nat × Doc) (doi_col issn_col : Char)
    (series_col : Nat) (new_filename : String) (st : RunState) (i r c : Nat)
    (hr : r ≠ i) :
    (processRow net doi_col issn_col series_col new_filename st i).ws.cell r c
      = st.ws.cell r c := by
  simp only [processRow]
  split <;> split <;> simp [Worksheet.setCell, hr]

lemma foldl_cell_not_mem (net : String → Nat × Doc) (doi_col issn_col : Char)
    (series_col : Nat) (new_filename : String) :
    ∀ (rows : List Nat) (st : RunState) (r c : Nat), r ∉ rows →
    ((rows.foldl (processRow net doi_col issn_col series_col new_filename) st).ws.cell r c)
      = st.ws.cell r c := by
  intro rows
  induction rows with
  | nil => intro st r c _; rfl
  | cons a t ih =>
    intro st r c h
    have hra : r ≠ a := by
      intro e
      exact h (by simp [e])
    rw [List.foldl_cons, ih _ r c (fun hm => h (List.mem_cons_of_mem _ hm)),
      processRow_cell_ne_row net doi_col issn_col series_col new_filename st a r c hra]

lemma processRow_writes (net : String → Nat × Doc) (doi_col issn_col : Char)
    (series_col : Nat) (new_filename : String) (st : RunState) (i : Nat)
    (h : truthy (st.ws.cell i (issn_col.toNat - 64)) = true) :
    ((processRow net doi_col issn_col series_col new_filename st i).ws.cell i series_col
        = (rowDict net (st.ws.cell i (doi_col.toNat - 64))).series ∧
      (processRow net doi_col issn_col series_col new_filename st i).ws.cell i
          (series_col + 1)
        = (rowDict net (st.ws.cell i (doi_col.toNat - 64))).acronym ∧
      (processRow net doi_col issn_col series_col new_filename st i).ws.cell i
          (series_col + 2)
        = (rowDict net (st.ws.cell i (doi_col.toNat - 64))).volume ∧
      (processRow net doi_col issn_col series_col new_filename st i).ws.cell i
          (series_col + 3)
        = (rowDict net (st.ws.cell i (doi_col.toNat - 64))).year ∧
      (processRow net doi_col issn_col series_col new_filename st i).ws.cell i
          (series_col + 4)
        = (rowDict net (st.ws.cell i (doi_col.toNat - 64))).package ∧
      (processRow net doi_col issn_col series_col new_filename st i).ws.cell i
          (series_col + 5)
        = (rowDict net (st.ws.cell i (doi_col.toNat - 64))).subseries) ∧
    ∀ c, c < series_col ∨ series_col + 5 < c →
      (processRow net doi_col issn_col series_col new_filename st i).ws.cell i c
        = st.ws.cell i c := by
  constructor
  · simp only [processRow, h, if_true, rowDict]
    split <;>
      refine ⟨?_, ?_, ?_, ?_, ?_, ?_⟩ <;>
      simp [Worksheet.setCell]
  · intro c hc
    simp only [processRow, h, if_true]
    split <;>
      (simp only [Worksheet.setCell]
       repeat rw [if_neg (fun hh : _ ∧ _ => by omega)])

/-- C1 (amended: the six columns are inserted immediately AFTER the
secondary-key (ISSN) column, not before it): on a fresh (non-resume)
run the pipeline inserts exactly six new blank columns at the
contiguous indices `issnIndex + 1 .. issnIndex + 6` — computed once
from the secondary-key column letter as `ord(letter) - 63` — leaving
the columns up to and including the ISSN column in place and shifting
the rest right by six; and for every processed row it writes the six
fields of the row's record into those columns in the fixed order
series, acronym, volume, year, package, subseries, while a skipped row
keeps the post-insertion contents of all its cells. -/
theorem claim_C1 (net : String → Nat × Doc) (files : String → Option Worksheet)
    (filename : String) (first_row : Nat) (doi_col issn_col : Char) (nf : String)
    (src : Worksheet)
    (hic : 64 ≤ issn_col.toNat)
    (hnf : newFilenameOf filename = some nf)
    (hfile : files filename = some src) :
    seriesColOf issn_col = (issn_col.toNat - 64) + 1 ∧
    (∀ r j, j < seriesColOf issn_col →
      (insertCols (seriesColOf issn_col) 6 src).cell r j = src.cell r j) ∧
    (∀ r j, seriesColOf issn_col ≤ j → j < seriesColOf issn_col + 6 →
      (insertCols (seriesColOf issn_col) 6 src).cell r j = CellValue.none) ∧
    (∀ r j, seriesColOf issn_col + 6 ≤ j →
      (insertCols (seriesColOf issn_col) 6 src).cell r j = src.cell r (j - 6)) ∧
    ∃ st, RunReportEnhancement net files filename first_row doi_col issn_col false
        = some st ∧
      ∀ i, first_row ≤ i → i ≤ src.max_row →
        (truthy ((insertCols (seriesColOf issn_col) 6 src).cell i (issn_col.toNat - 64))
            = true →
          (st.ws.cell i (seriesColOf issn_col)
              = (rowDict net
                  ((insertCols (seriesColOf issn_col) 6 src).cell i
                    (doi_col.toNat - 64))).series ∧
            st.ws.cell i (seriesColOf issn_col + 1)
              = (rowDict net
                  ((insertCols (seriesColOf issn_col) 6 src).cell i
                    (doi_col.toNat - 64))).acronym ∧
            st.ws.cell i (seriesColOf issn_col + 2)
              = (rowDict net
                  ((insertCols (seriesColOf issn_col) 6 src).cell i
                    (doi_col.toNat - 64))).volume ∧
            st.ws.cell i (seriesColOf issn_col + 3)
              = (rowDict net
                  ((insertCols (seriesColOf issn_col) 6 src).cell i
                    (doi_col.toNat - 64))).year ∧
            st.ws.cell i (seriesColOf issn_col + 4)
              = (rowDict net
                  ((insertCols (seriesColOf issn_col) 6 src).cell i
                    (doi_col.toNat - 64))).package ∧
            st.ws.cell i (seriesColOf issn_col + 5)
              = (rowDict net
                  ((insertCols (seriesColOf issn_col) 6 src).cell i
                    (doi_col.toNat - 64))).subseries)) ∧
        (truthy ((insertCols (seriesColOf issn_col) 6 src).cell i (issn_col.toNat - 64))
            = false →
          ∀ j, st.ws.cell i j = (insertCols (seriesColOf issn_col) 6 src).cell i j) := by
  refine ⟨by simp only [seriesColOf]; omega, ?_, ?_, ?_, ?_⟩
  · intro r j hj
    simp only [insertCols]
    rw [if_pos hj]
  · intro r j h1 h2
    simp only [insertCols]
    rw [if_neg (by omega), if_pos (by omega)]
  · intro r j h1
    simp only [insertCols]
    rw [if_neg (by omega), if_neg (by omega)]
  · refine ⟨runFromWs net doi_col issn_col first_row nf
      (insertCols (seriesColOf issn_col) 6 src), ?_, ?_⟩
    · simp [RunReportEnhancement, hnf, initialWs, hfile]
    · intro i hi1 hi2
      have hkn : i - first_row ≤ src.max_row + 1 - first_row := by omega
      have hik : first_row + (i - first_row) = i := by omega
      have hsplit : List.range' first_row (src.max_row + 1 - first_row)
          = List.range' first_row (i - first_row)
            ++ List.range' i ((src.max_row + 1 - first_row) - (i - first_row)) := by
        have happ := List.range'_append first_row (i - first_row)
          ((src.max_row + 1 - first_row) - (i - first_row)) 1
        rw [one_mul, hik] at happ
        have heq : (src.max_row + 1 - first_row) - (i - first_row) + (i - first_row)
            = src.max_row + 1 - first_row := by omega
        rw [heq] at happ
        exact happ.symm
      have hnk : (src.max_row + 1 - first_row) - (i - first_row)
          = ((src.max_row + 1 - first_row) - (i - first_row) - 1) + 1 := by omega
      have hconsB : List.range' i ((src.max_row + 1 - first_row) - (i - first_row))
          = i :: List.range' (i + 1)
              ((src.max_row + 1 - first_row) - (i - first_row) - 1) := by
        conv_lhs => rw [hnk]
        rw [List.range'_succ]
      have hcell : ∀ c,
          (runFromWs net doi_col issn_col first_row nf
            (insertCols (seriesColOf issn_col) 6 src)).ws.cell i c
          = (processRow net doi_col issn_col (seriesColOf issn_col) nf
              ((List.range' first_row (i - first_row)).foldl
                (processRow net doi_col issn_col (seriesColOf issn_col) nf)
                ⟨insertCols (seriesColOf issn_col) 6 src, 0, []⟩) i).ws.cell i c := by
        intro c
        show ((List.range' first_row
            ((insertCols (seriesColOf issn_col) 6 src).max_row + 1 - first_row)).foldl
              (processRow net doi_col issn_col (seriesColOf issn_col) nf)
              ⟨insertCols (seriesColOf issn_col) 6 src, 0, []⟩).ws.cell i c = _
        have hmax : (insertCols (seriesColOf issn_col) 6 src).max_row = src.max_row := rfl
        rw [hmax, hsplit, List.foldl_append, hconsB, List.foldl_cons]
        apply foldl_cell_not_mem
        intro hm
        rw [List.mem_range'_1] at hm
        omega
      have hA : ∀ c,
          (((List.range' first_row (i - first_row)).foldl
            (processRow net doi_col issn_col (seriesColOf issn_col) nf)
            ⟨insertCols (seriesColOf issn_col) 6 src, 0, []⟩) : RunState).ws.cell i c
          = (insertCols (seriesColOf issn_col) 6 src).cell i c := by
        intro c
        apply foldl_cell_not_mem
        intro hm
        rw [List.mem_range'_1] at hm
        omega
      constructor
      · intro ht
        have ht2 : truthy
            ((((List.range' first_row (i - first_row)).foldl
              (processRow net doi_col issn_col (seriesColOf issn_col) nf)
              ⟨insertCols (seriesColOf issn_col) 6 src, 0, []⟩) : RunState).ws.cell i
                (issn_col.toNat - 64)) = true := by
          rw [hA]
          exact ht
        have hw := processRow_writes net doi_col issn_col (seriesColOf issn_col) nf
          ((List.range' first_row (i - first_row)).foldl
            (processRow net doi_col issn_col (seriesColOf issn_col) nf)
            ⟨insertCols (seriesColOf issn_col) 6 src, 0, []⟩) i ht2
        rw [hA (doi_col.toNat - 64)] at hw
        obtain ⟨⟨w1, w2, w3, w4, w5, w6⟩, -⟩ := hw
        exact ⟨by rw [hcell]; exact w1, by rw [hcell]; exact w2, by rw [hcell]; exact w3,
          by rw [hcell]; exact w4, by rw [hcell]; exact w5, by rw [hcell]; exact w6⟩
      · intro hf
        have hf2 : truthy
            ((((List.range' first_row (i - first_row)).foldl
              (processRow net doi_col issn_col (seriesColOf issn_col) nf)
              ⟨insertCols (seriesColOf issn_col) 6 src, 0, []⟩) : RunState).ws.cell i
                (issn_col.toNat - 64)) = false := by
          rw [hA]
          exact hf
        have hsk := processRow_skip net doi_col issn_col (seriesColOf issn_col) nf
          ((List.range' first_row (i - first_row)).foldl
            (processRow net doi_col issn_col (seriesColOf issn_col) nf)
            ⟨insertCols (seriesColOf issn_col) 6 src, 0, []⟩) i hf2
        intro j
        rw [hcell j, hsk.1, hA j]

/-- Source worksheet for the C1 witness: one data row with an ISSN in
column G (index 7) and a DOI in column D (index 4). -/
def c1src : Worksheet :=
  ⟨fun r c =>
    if r = 1 ∧ c = 7 then CellValue.str "1234-5678"
    else if r = 1 ∧ c = 4 then CellValue.str "10.1007/b100000"
    else CellValue.none, 1⟩

/-- File store for the C1 witness. -/
def c1files : String → Option Worksheet := fun s =>
  if s = "report.xlsx" then some c1src else Option.none

/-- Witness for C1 at a concrete fresh run. -/
theorem claim_C1_witness :
    64 ≤ 'G'.toNat ∧
    newFilenameOf "report.xlsx" = some "report_v1.xlsx" ∧
    c1files "report.xlsx" = some c1src ∧
    (seriesColOf 'G' = ('G'.toNat - 64) + 1 ∧
      (∀ r j, j < seriesColOf 'G' →
        (insertCols (seriesColOf 'G') 6 c1src).cell r j = c1src.cell r j) ∧
      (∀ r j, seriesColOf 'G' ≤ j → j < seriesColOf 'G' + 6 →
        (insertCols (seriesColOf 'G') 6 c1src).cell r j = CellValue.none) ∧
      (∀ r j, seriesColOf 'G' + 6 ≤ j →
        (insertCols (seriesColOf 'G') 6 c1src).cell r j = c1src.cell r (j - 6)) ∧
      ∃ st, RunReportEnhancement all404net c1files "report.xlsx" 1 'D' 'G' false
          = some st ∧
        ∀ i, 1 ≤ i → i ≤ c1src.max_row →
          (truthy ((insertCols (seriesColOf 'G') 6 c1src).cell i ('G'.toNat - 64))
              = true →
            (st.ws.cell i (seriesColOf 'G')
                = (rowDict all404net
                    ((insertCols (seriesColOf 'G') 6 c1src).cell i
                      ('D'.toNat - 64))).series ∧
              st.ws.cell i (seriesColOf 'G' + 1)
                = (rowDict all404net
                    ((insertCols (seriesColOf 'G') 6 c1src).cell i
                      ('D'.toNat - 64))).acronym ∧
              st.ws.cell i (seriesColOf 'G' + 2)
                = (rowDict all404net
                    ((insertCols (seriesColOf 'G') 6 c1src).cell i
                      ('D'.toNat - 64))).volume ∧
              st.ws.cell i (seriesColOf 'G' + 3)
                = (rowDict all404net
                    ((insertCols (seriesColOf 'G') 6 c1src).cell i
                      ('D'.toNat - 64))).year ∧
              st.ws.cell i (seriesColOf 'G' + 4)
                = (rowDict all404net
                    ((insertCols (seriesColOf 'G') 6 c1src).cell i
                      ('D'.toNat - 64))).package ∧
              st.ws.cell i (seriesColOf 'G' + 5)
                = (rowDict all404net
                    ((insertCols (seriesColOf 'G') 6 c1src).cell i
                      ('D'.toNat - 64))).subseries)) ∧
          (truthy ((insertCols (seriesColOf 'G') 6 c1src).cell i ('G'.toNat - 64))
              = false →
            ∀ j, st.ws.cell i j = (insertCols (seriesColOf 'G') 6 c1src).cell i j)) :=
  ⟨by decide, by decide, rfl,
    claim_C1 all404net c1files "report.xlsx" 1 'D' 'G' "report_v1.xlsx" c1src
      (by decide) (by decide) rfl⟩

/-- A one-row worksheet with the ISSN in column G (index 7) and some
payload in the next column (index 8). -/
def c1wsB : Worksheet :=
  ⟨fun r c =>
    if r = 1 ∧ c = 7 then CellValue.str "1234-5678"
    else if r = 1 ∧ c = 8 then CellValue.str "X"
    else CellValue.none, 1⟩

/-- C1 counterexample: the claim places the six inserted columns
immediately BEFORE the ISSN column, which for `issn_col = 'G'` (index
7) would make index 7 the first of the six fresh blank columns and
shift the ISSN right.  In fact `series_col = ord('G') - 63 = 8`, the
ISSN cell stays in place at index 7 (still non-blank after the
insertion), the six blank columns occupy indices 8..13 — immediately
AFTER the ISSN column — and the old column 8 moves to index 14. -/
theorem claim_C1_counterexample :
    seriesColOf 'G' = 8 ∧ ('G'.toNat - 64) = 7 ∧
    (insertCols (seriesColOf 'G') 6 c1wsB).cell 1 7 = CellValue.str "1234-5678" ∧
    (insertCols (seriesColOf 'G') 6 c1wsB).cell 1 7 ≠ CellValue.none ∧
    (insertCols (seriesColOf 'G') 6 c1wsB).cell 1 8 = CellValue.none ∧
    (insertCols (seriesColOf 'G') 6 c1wsB).cell 1 13 = CellValue.none ∧
    (insertCols (seriesColOf 'G') 6 c1wsB).cell 1 14 = CellValue.str "X" := by
  decide

end SpringerBooks
